import Mathlib

/-!
Shallow embedding of the agentic-chatbot repository's core:
guardrails validation service and LLM wrapper
(src/langgraphagenticai/guardrail/validation_service.py,
 src/langgraphagenticai/guardrail/llm_wrapper.py),
MCP tool gateway (src/langgraphagenticai/tools/mcp_tools.py),
graph builder (src/langgraphagenticai/graph/graph_builder.py),
and memory wrapper (src/langgraphagenticai/memori_integration.py).

Python exceptions from external calls are modelled with `Except String`
outcomes; `try/except` blocks become explicit matches on those outcomes.
-/

/-- A LangChain chat message (HumanMessage / AIMessage / SystemMessage /
any other message class). -/
inductive Message where
  | human (content : String)
  | ai (content : String)
  | system (content : String)
  | other (content : String)
deriving DecidableEq

def Message.content : Message → String
  | .human c => c
  | .ai c => c
  | .system c => c
  | .other c => c

/-- `generation.message.content = processed_output`: replace the content,
keeping the message class. -/
def Message.withContent : Message → String → Message
  | .human _, c => .human c
  | .ai _, c => .ai c
  | .system _, c => .system c
  | .other _, c => .other c

/-- The `input_data` argument of `invoke`: a string, a list of messages,
a dict (possibly carrying an "input" entry), or anything else. -/
inductive InputData where
  | str (s : String)
  | msgs (l : List Message)
  | dict (inputField : Option String)
  | other
deriving DecidableEq

/-- Outcome of `guard.validate(text)` (external guardrails library call):
it can pass with a validated output, fail with a list of failure messages,
or raise an exception. -/
inductive ValidateOutcome where
  | passed (validated_output : String)
  | failed (error_messages : List String)
  | raised (msg : String)

/-- `GuardrailsConfig` (guardrails_config.py): an enabled flag and a dict
of guards; a stored guard can itself be `None` (guard creation failed). -/
structure GuardrailsConfig where
  enabled : Bool
  guards : List (String × Option (String → ValidateOutcome))

/-- `self.guards.get(guard_type)`: first binding for the key, if any. -/
def lookupGuard :
    List (String × Option (String → ValidateOutcome)) → String →
    Option (Option (String → ValidateOutcome))
  | [], _ => none
  | (k, g) :: rest, key => if k = key then some g else lookupGuard rest key

/-- `GuardrailsConfig.is_enabled`: `self.enabled and len(self.guards) > 0`. -/
def GuardrailsConfig.is_enabled (c : GuardrailsConfig) : Bool :=
  c.enabled && decide (0 < c.guards.length)

/-- `GuardrailsConfig.get_guard`: `None` when disabled, else the dict entry.
A stored `None` guard and a missing key are both "no guard" (`if not guard`). -/
def GuardrailsConfig.get_guard (c : GuardrailsConfig) (t : String) :
    Option (String → ValidateOutcome) :=
  if c.enabled then
    match lookupGuard c.guards t with
    | some g => g
    | none => none
  else none

/-- The fixed safe-refusal text returned when input validation fails
(llm_wrapper.py lines 49 and 94). -/
def refusalText : String :=
  "I cannot process this request due to safety guidelines. Please rephrase your question."

/-- The fixed safe-fallback text substituted when output validation fails
(validation_service.py line 83). -/
def fallbackText : String :=
  "I apologize, but I cannot provide a response that meets safety guidelines. Please try rephrasing your question."

/-- `ValidationService.validate_user_input`: returns
(is_valid, processed_input, error_message). Any exception raised by the
guard is caught and treated as a pass-through. -/
def validate_user_input (cfg : GuardrailsConfig) (user_input : String) :
    Bool × String × Option String :=
  if !cfg.is_enabled then (true, user_input, none)
  else
    match cfg.get_guard "input_safety" with
    | none => (true, user_input, none)
    | some guard =>
      match guard user_input with
      | .passed out => (true, out, none)
      | .failed errs =>
        (false, user_input,
          some ("Input validation failed: " ++ String.intercalate "; " errs))
      | .raised _ => (true, user_input, none)

/-- Guard selection of `validate_llm_output`:
`content_moderation` for the tool-backed use cases, else `output_quality`. -/
def outputGuard (cfg : GuardrailsConfig) (usecase : String) :
    Option (String → ValidateOutcome) :=
  if usecase = "MCP Chatbot" ∨ usecase = "Chatbot with Tool" then
    cfg.get_guard "content_moderation"
  else
    cfg.get_guard "output_quality"

/-- `ValidationService.validate_llm_output`: returns
(is_valid, processed_output, error_message); on failure the processed
output is the fixed safe-fallback text. Guard exceptions pass through. -/
def validate_llm_output (cfg : GuardrailsConfig) (llm_output : String)
    (usecase : String) : Bool × String × Option String :=
  if !cfg.is_enabled then (true, llm_output, none)
  else
    match outputGuard cfg usecase with
    | none => (true, llm_output, none)
    | some guard =>
      match guard llm_output with
      | .passed out => (true, out, none)
      | .failed errs =>
        (false, fallbackText,
          some ("Output validation failed: " ++ String.intercalate "; " errs))
      | .raised _ => (true, llm_output, none)

/-- The message-list loop of `GuardrailsLLMWrapper.invoke` (lines 98-110):
validate each HumanMessage in order; `none` means the loop returned the
refusal, otherwise the processed list is produced. -/
def processMessages (cfg : GuardrailsConfig) : List Message → Option (List Message)
  | [] => some []
  | .human c :: rest =>
    let v := validate_user_input cfg c
    if v.1 then (processMessages cfg rest).map (fun r => .human v.2.1 :: r)
    else none
  | m :: rest => (processMessages cfg rest).map (fun r => m :: r)

/-- Input handling of `GuardrailsLLMWrapper.invoke` (lines 86-110):
`none` means the refusal short-circuit fired (zero model calls),
otherwise the (possibly rewritten) input that reaches the model. -/
def processInput (cfg : GuardrailsConfig) : InputData → Option InputData
  | .str s =>
    let v := validate_user_input cfg s
    if v.1 then some (.str v.2.1) else none
  | .msgs l => (processMessages cfg l).map InputData.msgs
  | .dict d => some (.dict d)
  | .other => some .other

/-- `GuardrailsLLMWrapper.invoke`. The underlying `self.llm.invoke` is an
argument that may raise (`Except.error`). Returns the result together with
the number of calls made to the underlying model. An exception from the
first model call is caught at line 128 and answered by a second, raw call
on the (already rewritten) input, whose result is returned unvalidated. -/
def wrapperInvoke (cfg : GuardrailsConfig) (usecase : String)
    (llm : InputData → Except String Message) (input_data : InputData) :
    Except String Message × Nat :=
  match processInput cfg input_data with
  | none => (Except.ok (Message.ai refusalText), 0)
  | some input' =>
    match llm input' with
    | .error _ =>
      -- except branch: self.llm.invoke(input_data, ...) on the rebound input
      match llm input' with
      | .ok r => (Except.ok r, 2)
      | .error e => (Except.error e, 2)
    | .ok result =>
      match result with
      | .ai c =>
        if c ≠ "" then
          let v := validate_llm_output cfg c usecase
          if v.1 then (Except.ok (Message.ai c), 1)
          else (Except.ok (Message.ai v.2.1), 1)
        else (Except.ok (Message.ai c), 1)
      | r => (Except.ok r, 1)

/-- A LangChain generation result: the `result.generations` list, with
each generation's `.message`. -/
structure GenResult where
  generations : List Message
deriving DecidableEq

/-- Output-validation loop of `_generate` (lines 60-75): each generation
whose content fails validation has its content replaced by the processed
(safe) output; passing generations are left untouched. -/
def validateGenerations (cfg : GuardrailsConfig) (usecase : String)
    (gens : List Message) : List Message :=
  gens.map (fun g =>
    let v := validate_llm_output cfg g.content usecase
    if v.1 then g else g.withContent v.2.1)

/-- `messages[-1] = HumanMessage(...)`: replace the last element. -/
def setLast (l : List Message) (m : Message) : List Message :=
  l.dropLast ++ [m]

/-- `GuardrailsLLMWrapper._generate`. Counts calls to the underlying
`self.llm._generate`. On a failed input validation the code comments
"Return safe response" but actually calls the underlying model once with
`[HumanMessage(safe_response)]` and returns that generation (line 50).
An exception anywhere in the try body falls back to one raw call on the
current `messages` binding (lines 79-81), returned unvalidated. -/
def wrapperGenerate (cfg : GuardrailsConfig) (usecase : String)
    (llmGen : List Message → Except String GenResult) (messages : List Message) :
    Except String GenResult × Nat :=
  let user_input : String :=
    match messages.getLast? with
    | some (.human c) => c
    | _ => ""
  if user_input ≠ "" then
    let v := validate_user_input cfg user_input
    if !v.1 then
      -- line 50: the model is called with the safe text as the prompt
      match llmGen [Message.human refusalText] with
      | .ok r => (Except.ok r, 1)
      | .error _ =>
        match llmGen messages with
        | .ok r => (Except.ok r, 2)
        | .error e => (Except.error e, 2)
    else
      let messages' :=
        if v.2.1 ≠ user_input then setLast messages (.human v.2.1) else messages
      match llmGen messages' with
      | .error _ =>
        match llmGen messages' with
        | .ok r => (Except.ok r, 2)
        | .error e => (Except.error e, 2)
      | .ok result =>
        (Except.ok ⟨validateGenerations cfg usecase result.generations⟩, 1)
  else
    match llmGen messages with
    | .error _ =>
      match llmGen messages with
      | .ok r => (Except.ok r, 2)
      | .error e => (Except.error e, 2)
    | .ok result =>
      (Except.ok ⟨validateGenerations cfg usecase result.generations⟩, 1)

/-- An entry of the `mcpServers` mapping (mcp_tools.py): `Option` fields
model which keys are present in the server's JSON object. -/
structure ServerConfig where
  disabled : Option Bool
  command : Option String
  args : Option (List String)
  env : Option (List (String × String))
deriving DecidableEq

/-- A parsed MCP configuration object; `mcpServers = none` models a JSON
object without the `mcpServers` key. The list keeps dict insertion order. -/
structure MCPConfig where
  mcpServers : Option (List (String × ServerConfig))
deriving DecidableEq

/-- The `MCPTool` pydantic model's fields. -/
structure MCPTool where
  name : String
  description : String
  mcp_command : String
  mcp_args : List String
  mcp_env : List (String × String)
deriving DecidableEq

/-- The tool built for one server entry (mcp_tools.py lines 71-77):
missing `command` defaults to "uvx", missing `args`/`env` to empty. -/
def mkMCPTool (p : String × ServerConfig) : MCPTool :=
  { name := "mcp_" ++ p.1,
    description :=
      "MCP tool for " ++ p.1 ++ " server - can handle various queries and operations",
    mcp_command := p.2.command.getD "uvx",
    mcp_args := p.2.args.getD [],
    mcp_env := p.2.env.getD [] }

/-- `create_mcp_tools_from_config`: iterate `config.get("mcpServers", {})`,
skip entries with `disabled` truthy, build a tool for every other entry. -/
def create_mcp_tools_from_config (cfg : MCPConfig) : List MCPTool :=
  (cfg.mcpServers.getD []).filterMap (fun p =>
    if p.2.disabled.getD false then none else some (mkMCPTool p))

/-- The enabled entries of the configuration, in order. -/
def enabledServers (cfg : MCPConfig) : List (String × ServerConfig) :=
  (cfg.mcpServers.getD []).filter (fun p => !(p.2.disabled.getD false))

/-- `validate_mcp_config` after JSON parsing (`none` input = parse error):
rejects the whole configuration (returns `None`) when the `mcpServers`
key is absent or any server entry lacks a `command` field. -/
def validate_mcp_config : Option MCPConfig → Option MCPConfig
  | none => none
  | some cfg =>
    match cfg.mcpServers with
    | none => none
    | some servers =>
      if servers.all (fun p => p.2.command.isSome) then some cfg else none

/-- Outcome of the `subprocess.run(...)` call in `MCPTool._run`:
normal exit with a return code and captured stdout/stderr, a
`TimeoutExpired` (the process is killed by `subprocess.run`), or any
other exception. -/
inductive ProcOutcome where
  | exited (returncode : Int) (stdout : String) (stderr : String)
  | timedOut (msg : String)
  | raised (msg : String)
deriving DecidableEq

/-- The request envelope written to the tool process's stdin
(`input_data` dict of `_run`, before JSON serialisation). -/
structure ToolCallEnvelope where
  method : String
  name : String
  query : String
deriving DecidableEq

def mkEnvelope (t : MCPTool) (query : String) : ToolCallEnvelope :=
  ⟨"tools/call", t.name, query⟩

/-- The timeout (seconds) passed to `subprocess.run` in `MCPTool._run`. -/
def mcpTimeoutSeconds : Nat := 30

/-- `MCPTool._run`: spawn `[self.mcp_command] + self.mcp_args` with the
request envelope on stdin (the subprocess's behaviour is the `sub`
oracle); exit 0 returns stdout, a non-zero exit returns
"Error: " ++ stderr, and any exception (timeouts included) is caught and
rendered as "Error executing MCP tool: " ++ message. -/
def MCPTool.run (t : MCPTool)
    (sub : List String → ToolCallEnvelope → ProcOutcome) (query : String) :
    String :=
  match sub (t.mcp_command :: t.mcp_args) (mkEnvelope t query) with
  | .exited rc sout serr =>
    if rc = 0 then sout else "Error: " ++ serr
  | .timedOut msg => "Error executing MCP tool: " ++ msg
  | .raised msg => "Error executing MCP tool: " ++ msg

/-- A compiled graph topology (graph_builder.py): the basic single-node
graph, the prebuilt-tools graph, or the MCP graph carrying its tools. -/
inductive Graph where
  | basic
  | withTools
  | mcp (tools : List MCPTool)
deriving DecidableEq

def mcpNoToolsMsg : String :=
  "No MCP tools could be created from the configuration"

/-- `GraphBuilder.mcp_chatbot_build_graph`: raises `ValueError` when no
tool could be created from the configuration. -/
def mcp_chatbot_build_graph (cfg : MCPConfig) : Except String Graph :=
  let mcp_tools := create_mcp_tools_from_config cfg
  if mcp_tools.isEmpty then Except.error mcpNoToolsMsg
  else Except.ok (Graph.mcp mcp_tools)

def recognizedUsecases : List String :=
  ["Basic Chatbot", "Chatbot with Tool", "AI News", "MCP Chatbot"]

/-- `GraphBuilder.setup_graph`: dispatch on the use-case identifier;
`ValueError` for an unknown identifier and for the MCP use case without a
configuration (`Except.error` models an exception reaching the caller). -/
def setup_graph (usecase : String) (mcp_config : Option MCPConfig) :
    Except String Graph :=
  if usecase = "Basic Chatbot" then Except.ok Graph.basic
  else if usecase = "Chatbot with Tool" then Except.ok Graph.withTools
  else if usecase = "AI News" then Except.ok Graph.withTools
  else if usecase = "MCP Chatbot" then
    match mcp_config with
    | none => Except.error "MCP configuration is required for MCP Chatbot"
    | some cfg => mcp_chatbot_build_graph cfg
  else Except.error ("Unknown usecase: " ++ usecase)

/-- The Memori memory tool (memori_integration.py): `execute(query=...)`
may raise; an optional `search` attribute is the fallback. -/
structure MemoryTool where
  execute : String → Except String String
  search : Option (String → Except String String)

/-- The Memori memory system: the duck-typed record methods tried in
order by `_record_conversation`; each may raise. -/
structure MemorySystem where
  record_conversation : Option (String → String → Except String Unit)
  ingest : Option (String → String → Except String Unit)
  record : Option (String → String → Except String Unit)

/-- The underlying LLM seen by `MemoryLLMWrapper.invoke`: `invoke`,
`_generate` and the optional `__call__` fallbacks, each able to raise. -/
structure MemLLM where
  invoke : InputData → Except String Message
  generate : InputData → Except String Message
  callFn : Option (InputData → Except String Message)

/-- `MemoryLLMWrapper._prepend_memories`: query the tool (falling back to
`search` when `execute` raises); on a falsy or failed result return the
messages unchanged; on a hit prepend a SystemMessage summary. Prepending
to a non-list input raises a TypeError that the outer except swallows,
returning the input unchanged. -/
def prependMemories (tool : Option MemoryTool) (input : InputData)
    (query : String) : InputData :=
  match tool with
  | none => input
  | some t =>
    let res : Except String String :=
      match t.execute query with
      | .ok r => Except.ok r
      | .error _ =>
        match t.search with
        | some s => s query
        | none => Except.ok ""
    match res with
    | .error _ => input
    | .ok r =>
      if r = "" then input
      else
        match input with
        | .msgs l => .msgs (Message.system ("Relevant memories:\n" ++ r) :: l)
        | x => x

/-- User-text extraction of `MemoryLLMWrapper.invoke` (lines 125-142):
a string input is itself; in a list the last HumanMessage wins; a dict
contributes its "input" entry; anything else yields nothing. -/
def extractUserText : InputData → Option String
  | .str s => some s
  | .msgs l => (l.reverse.find? (fun m => match m with
      | .human _ => true
      | _ => false)).map Message.content
  | .dict f => f
  | .other => none

/-- The input actually passed to the underlying LLM (lines 144-150):
memories are prepended only when a truthy user text and a memory tool
are present. -/
def memoryMessagesFor (tool : Option MemoryTool) (input : InputData) :
    InputData :=
  match extractUserText input with
  | some q => if q ≠ "" ∧ tool.isSome then prependMemories tool input q else input
  | none => input

/-- The underlying LLM call with fallbacks (lines 152-162): try `invoke`,
then `_generate`, then `getattr(self.llm, "__call__", lambda x: None)`;
a missing `__call__` yields `None`, a raising `__call__` escapes. -/
def memoryLLMCall (llm : MemLLM) (x : InputData) :
    Except String (Option Message) :=
  match llm.invoke x with
  | .ok r => Except.ok (some r)
  | .error _ =>
    match llm.generate x with
    | .ok r => Except.ok (some r)
    | .error _ =>
      match llm.callFn with
      | none => Except.ok none
      | some f => (f x).map some

/-- What `_record_conversation` did: the observable effect on the store. -/
inductive RecordOutcome where
  | notAttempted
  | skippedNoMemory
  | viaRecordConversation (u a : String)
  | viaIngest (u a : String)
  | viaRecord (u a : String)
  | noMethod
  | swallowed
deriving DecidableEq

/-- `MemoryLLMWrapper._record_conversation`: try the known method names
in order; any exception is caught and swallowed. -/
def recordConversation (mem : Option MemorySystem) (u a : String) :
    RecordOutcome :=
  match mem with
  | none => .skippedNoMemory
  | some m =>
    match m.record_conversation with
    | some f =>
      match f u a with
      | .ok _ => .viaRecordConversation u a
      | .error _ => .swallowed
    | none =>
      match m.ingest with
      | some f =>
        match f u a with
        | .ok _ => .viaIngest u a
        | .error _ => .swallowed
      | none =>
        match m.record with
        | some f =>
          match f u a with
          | .ok _ => .viaRecord u a
          | .error _ => .swallowed
        | none => .noMethod

/-- `MemoryLLMWrapper.invoke`: look up memories, call the underlying LLM
(with fallbacks), best-effort record the (user, ai) pair, and return the
LLM call's result. The second component records the store effect. -/
def memoryInvoke (tool : Option MemoryTool) (mem : Option MemorySystem)
    (llm : MemLLM) (input : InputData) :
    Except String (Option Message) × RecordOutcome :=
  let user_text := extractUserText input
  let result := memoryLLMCall llm (memoryMessagesFor tool input)
  match result with
  | .error e => (Except.error e, .notAttempted)
  | .ok r =>
    let ai_text : Option String :=
      match r with
      | some (.ai c) => some c
      | _ => none
    match user_text, ai_text with
    | some u, some a =>
      if u ≠ "" ∧ a ≠ "" then (Except.ok r, recordConversation mem u a)
      else (Except.ok r, .notAttempted)
    | _, _ => (Except.ok r, .notAttempted)

/-! Concrete fixtures used by witnesses and counterexamples. -/

/-- A guard failing exactly on the text "BAD". -/
def failOnBadGuard : String → ValidateOutcome :=
  fun s => if s = "BAD" then .failed ["toxic"] else .passed s

/-- Guardrails config with only an input-safety guard rejecting "BAD". -/
def cfgInputFail : GuardrailsConfig :=
  ⟨true, [("input_safety", some failOnBadGuard)]⟩

/-- A deterministic underlying chat model echoing its prompt. -/
def echoGen : List Message → Except String GenResult :=
  fun msgs =>
    Except.ok ⟨[Message.ai ("ECHO: " ++ String.intercalate " " (msgs.map Message.content))]⟩

/-- A guard failing on every text. -/
def alwaysFailGuard : String → ValidateOutcome := fun _ => .failed ["unsafe"]

/-- Guardrails config whose output-quality guard rejects everything. -/
def cfgOutputFail : GuardrailsConfig :=
  ⟨true, [("output_quality", some alwaysFailGuard)]⟩

/-- An underlying model always answering "resp". -/
def constLLM : InputData → Except String Message :=
  fun _ => Except.ok (Message.ai "resp")

/-- A guard whose validate call raises. -/
def raisingGuard : String → ValidateOutcome := fun _ => .raised "boom"

/-- Guardrails config whose guards all raise internally. -/
def cfgRaising : GuardrailsConfig :=
  ⟨true, [("input_safety", some raisingGuard), ("output_quality", some raisingGuard)]⟩

/-! Helper lemmas. -/

/-- A present guard implies the configuration reports itself enabled. -/
theorem get_guard_isEnabled {c : GuardrailsConfig} {t : String}
    {g : String → ValidateOutcome} (h : c.get_guard t = some g) :
    c.is_enabled = true := by
  unfold GuardrailsConfig.get_guard at h
  unfold GuardrailsConfig.is_enabled
  by_cases he : c.enabled
  · simp only [he, if_pos] at h
    simp only [he, Bool.true_and, decide_eq_true_eq]
    cases hl : lookupGuard c.guards t with
    | none => rw [hl] at h; exact absurd h (by simp)
    | some og =>
      cases hg : c.guards with
      | nil => rw [hg] at hl; exact absurd hl (by simp [lookupGuard])
      | cons a l => simp
  · simp [he] at h

/-- On a failed output validation the processed output is the fixed
safe-fallback text. -/
theorem validate_llm_output_fallback (cfg : GuardrailsConfig)
    (c usecase : String) (h : (validate_llm_output cfg c usecase).1 = false) :
    (validate_llm_output cfg c usecase).2.1 = fallbackText := by
  unfold validate_llm_output at h ⊢
  by_cases hE : (!cfg.is_enabled) = true
  · simp [hE] at h
  · simp only [if_neg hE] at h ⊢
    cases hg : outputGuard cfg usecase with
    | none => simp [hg] at h
    | some guard =>
      simp only [hg] at h ⊢
      cases ho : guard c with
      | passed o => simp [ho] at h
      | failed errs => simp [ho]
      | raised m => simp [ho] at h

/-! Claim theorems. -/

/-- C1: code-bug evidence. On an input that fails input validation,
`invoke` indeed short-circuits with zero model calls and the fixed
refusal text, but `_generate` calls the underlying model once, with the
safe-refusal text as the prompt, and returns that model generation
(llm_wrapper.py line 50) — contradicting its own "Return safe response"
comment and the spec's "zero model calls, fixed refusal text returned". -/
theorem c1_generate_invokes_model_on_failed_input :
    wrapperGenerate cfgInputFail "general" echoGen [Message.human "BAD"] =
      (Except.ok ⟨[Message.ai ("ECHO: " ++ refusalText)]⟩, 1) ∧
    wrapperInvoke cfgInputFail "general" (fun _ => Except.ok (Message.ai "ok"))
      (InputData.str "BAD") = (Except.ok (Message.ai refusalText), 0) :=
  ⟨rfl, rfl⟩

/-- C5: whenever the model's output fails output validation inside
`GuardrailsLLMWrapper.invoke`, the caller receives the fixed
safe-fallback text in place of the model's output. -/
theorem c5_failed_output_validation_returns_fallback
    (cfg : GuardrailsConfig) (usecase : String)
    (llm : InputData → Except String Message) (input input' : InputData)
    (c : String)
    (hp : processInput cfg input = some input')
    (hl : llm input' = Except.ok (Message.ai c)) (hc : c ≠ "")
    (hv : (validate_llm_output cfg c usecase).1 = false) :
    wrapperInvoke cfg usecase llm input =
      (Except.ok (Message.ai fallbackText), 1) := by
  unfold wrapperInvoke
  simp only [hp, hl]
  simp only [ne_eq, hc, not_false_eq_true, if_true]
  simp only [hv, Bool.false_eq_true, if_false]
  rw [validate_llm_output_fallback cfg c usecase hv]

/-- C5 witness: a config whose output guard rejects everything turns the
model's "resp" into the fallback text. -/
theorem c5_witness :
    wrapperInvoke cfgOutputFail "general" constLLM (InputData.str "hi") =
      (Except.ok (Message.ai fallbackText), 1) :=
  c5_failed_output_validation_returns_fallback cfgOutputFail "general"
    constLLM (InputData.str "hi") (InputData.str "hi") "resp" rfl rfl
    (by decide) rfl

/-- C6: an internal exception inside a validation stage (the guard call
raising) is caught at that stage: both stages behave as pass-through,
returning (True, original text, None). -/
theorem c6_internal_exception_fail_open (cfg : GuardrailsConfig)
    (g1 g2 : String → ValidateOutcome) (s out usecase m1 m2 : String)
    (h1 : cfg.get_guard "input_safety" = some g1)
    (h2 : g1 s = ValidateOutcome.raised m1)
    (h3 : outputGuard cfg usecase = some g2)
    (h4 : g2 out = ValidateOutcome.raised m2) :
    validate_user_input cfg s = (true, s, none) ∧
    validate_llm_output cfg out usecase = (true, out, none) := by
  have hen := get_guard_isEnabled h1
  constructor
  · unfold validate_user_input
    simp [hen, h1, h2]
  · unfold validate_llm_output
    simp [hen, h3, h4]

/-- C6 witness: with guards that raise, both validations pass the
original text through unchanged. -/
theorem c6_witness :
    validate_user_input cfgRaising "hello" = (true, "hello", none) ∧
    validate_llm_output cfgRaising "world" "general" = (true, "world", none) :=
  c6_internal_exception_fail_open cfgRaising raisingGuard raisingGuard
    "hello" "world" "general" "boom" "boom" rfl rfl rfl rfl

/-- Splitting a filterMap whose function is an if-none into filter+map. -/
theorem filterMap_ite_none_eq_filter_map {α β : Type} (c : α → Bool)
    (f : α → β) (l : List α) :
    l.filterMap (fun a => if c a then none else some (f a)) =
      (l.filter (fun a => !(c a))).map f := by
  induction l with
  | nil => rfl
  | cons a l ih =>
    by_cases h : c a <;>
      simp [List.filterMap_cons, List.filter_cons, h, ih]

/-! Fixtures for the MCP claims. -/

/-- A well-formed server entry. -/
def scGood : ServerConfig := ⟨none, some "echo", some ["hi"], none⟩

/-- A malformed server entry: the command field is missing. -/
def scNoCommand : ServerConfig := ⟨none, none, none, none⟩

/-- A configuration holding one well-formed and one malformed entry. -/
def cfgMalformed : MCPConfig := ⟨some [("good", scGood), ("bad", scNoCommand)]⟩

/-- A configuration whose only entry omits the command field. -/
def cfgOnlyMissing : MCPConfig := ⟨some [("files", scNoCommand)]⟩

/-- A sample registered tool. -/
def sampleTool : MCPTool :=
  ⟨"mcp_files",
   "MCP tool for files server - can handle various queries and operations",
   "uvx", [], []⟩

/-- The message `str(subprocess.TimeoutExpired(...))` produces for the
default command and timeout. -/
def timeoutExpiredMsg : String := "Command uvx timed out after 30 seconds"

/-- C2 counterexample: with one well-formed and one malformed (missing
command) entry, registration does NOT skip the malformed entry — both
entries are registered, the malformed one with the default command. -/
theorem c2_counterexample_malformed_not_skipped :
    (create_mcp_tools_from_config cfgMalformed).length = 2 ∧
    (create_mcp_tools_from_config cfgMalformed).map MCPTool.name =
      ["mcp_good", "mcp_bad"] ∧
    (create_mcp_tools_from_config cfgMalformed).map MCPTool.mcp_command =
      ["echo", "uvx"] := by
  decide

/-- C2 (amended): registration registers every enabled entry, malformed
ones included (a missing command defaults to "uvx"), and never raises;
per-set validation lives in `validate_mcp_config`, which rejects the
whole configuration when any entry lacks a command field. -/
theorem c2_amended_no_per_entry_skipping (cfg : MCPConfig)
    (hmal : ¬ ((cfg.mcpServers.getD []).all (fun p => p.2.command.isSome) = true)) :
    create_mcp_tools_from_config cfg = (enabledServers cfg).map mkMCPTool ∧
    validate_mcp_config (some cfg) = none := by
  constructor
  · unfold create_mcp_tools_from_config enabledServers
    exact filterMap_ite_none_eq_filter_map _ _ _
  · unfold validate_mcp_config
    cases hms : cfg.mcpServers with
    | none => exact absurd (by rw [hms]; rfl) hmal
    | some servers =>
      rw [hms] at hmal
      simp only [Option.getD_some] at hmal
      simp [hms, hmal]

/-- C2 witness: the amended statement at the two-entry configuration. -/
theorem c2_witness :
    create_mcp_tools_from_config cfgMalformed =
      (enabledServers cfgMalformed).map mkMCPTool ∧
    validate_mcp_config (some cfgMalformed) = none :=
  c2_amended_no_per_entry_skipping cfgMalformed (by decide)

/-- C3: `MCPTool._run` maps a zero exit to the process's stdout, a
non-zero exit to an error string containing the process's stderr, and any
exception to a caught error string — never raising past the gateway. -/
theorem c3_subprocess_result_mapping (t : MCPTool)
    (sub : List String → ToolCallEnvelope → ProcOutcome) (query : String)
    (rc : Int) (sout serr emsg : String) (hrc : rc ≠ 0) :
    (sub (t.mcp_command :: t.mcp_args) (mkEnvelope t query) =
        ProcOutcome.exited 0 sout serr →
      MCPTool.run t sub query = sout) ∧
    (sub (t.mcp_command :: t.mcp_args) (mkEnvelope t query) =
        ProcOutcome.exited rc sout serr →
      MCPTool.run t sub query = "Error: " ++ serr ∧
        List.IsInfix serr.data (MCPTool.run t sub query).data) ∧
    (sub (t.mcp_command :: t.mcp_args) (mkEnvelope t query) =
        ProcOutcome.raised emsg →
      MCPTool.run t sub query = "Error executing MCP tool: " ++ emsg) := by
  refine ⟨fun h => ?_, fun h => ?_, fun h => ?_⟩
  · unfold MCPTool.run
    simp [h]
  · have hrun : MCPTool.run t sub query = "Error: " ++ serr := by
      unfold MCPTool.run
      simp [h, hrc]
    refine ⟨hrun, ?_⟩
    rw [hrun]
    exact ⟨"Error: ".data, [], by simp [String.data_append]⟩
  · unfold MCPTool.run
    simp [h]

/-- C3 witness: the three outcome shapes at a concrete tool. -/
theorem c3_witness :
    MCPTool.run sampleTool (fun _ _ => ProcOutcome.exited 0 "out" "err") "q" =
      "out" ∧
    MCPTool.run sampleTool (fun _ _ => ProcOutcome.exited 1 "out" "err") "q" =
      "Error: err" ∧
    MCPTool.run sampleTool (fun _ _ => ProcOutcome.raised "boom") "q" =
      "Error executing MCP tool: boom" :=
  ⟨(c3_subprocess_result_mapping sampleTool
      (fun _ _ => ProcOutcome.exited 0 "out" "err") "q" 1 "out" "err" "boom"
      (by decide)).1 rfl,
   ((c3_subprocess_result_mapping sampleTool
      (fun _ _ => ProcOutcome.exited 1 "out" "err") "q" 1 "out" "err" "boom"
      (by decide)).2.1 rfl).1,
   (c3_subprocess_result_mapping sampleTool
      (fun _ _ => ProcOutcome.raised "boom") "q" 1 "out" "err" "boom"
      (by decide)).2.2 rfl⟩

/-- C4 counterexample: on a timeout the returned error text is not the
fixed string "timeout" — it is the caught-exception rendering. -/
theorem c4_counterexample_error_text_not_timeout :
    MCPTool.run sampleTool (fun _ _ => ProcOutcome.timedOut timeoutExpiredMsg)
      "q" ≠ "timeout" := by
  decide

/-- C4 (amended): a timed-out subprocess yields the error text
"Error executing MCP tool: " followed by the TimeoutExpired message, and
the timeout handed to `subprocess.run` is 30 seconds. -/
theorem c4_amended_timeout_result (t : MCPTool)
    (sub : List String → ToolCallEnvelope → ProcOutcome) (query msg : String)
    (h : sub (t.mcp_command :: t.mcp_args) (mkEnvelope t query) =
      ProcOutcome.timedOut msg) :
    MCPTool.run t sub query = "Error executing MCP tool: " ++ msg ∧
    mcpTimeoutSeconds = 30 := by
  constructor
  · unfold MCPTool.run
    simp [h]
  · rfl

/-- C4 witness: the amended statement at a concrete timed-out tool call. -/
theorem c4_witness :
    MCPTool.run sampleTool (fun _ _ => ProcOutcome.timedOut timeoutExpiredMsg)
      "q" = "Error executing MCP tool: " ++ timeoutExpiredMsg ∧
    mcpTimeoutSeconds = 30 :=
  c4_amended_timeout_result sampleTool
    (fun _ _ => ProcOutcome.timedOut timeoutExpiredMsg) "q" timeoutExpiredMsg rfl

/-- C7: when zero MCP tools can be created from the configuration — in
particular when the `mcpServers` key is missing — graph setup for the MCP
use case raises before any turn, instead of building a tool-less graph. -/
theorem c7_zero_tools_fail_fast (cfg : MCPConfig) :
    (cfg.mcpServers = none → create_mcp_tools_from_config cfg = []) ∧
    (create_mcp_tools_from_config cfg = [] →
      setup_graph "MCP Chatbot" (some cfg) = Except.error mcpNoToolsMsg) := by
  constructor
  · intro h
    unfold create_mcp_tools_from_config
    rw [h]
    rfl
  · intro h
    show mcp_chatbot_build_graph cfg = Except.error mcpNoToolsMsg
    unfold mcp_chatbot_build_graph
    rw [h]
    rfl

/-- C7 witness: a configuration without the `mcpServers` key yields zero
tools and a failed setup. -/
theorem c7_witness :
    create_mcp_tools_from_config (MCPConfig.mk none) = [] ∧
    setup_graph "MCP Chatbot" (some (MCPConfig.mk none)) =
      Except.error mcpNoToolsMsg :=
  ⟨(c7_zero_tools_fail_fast (MCPConfig.mk none)).1 rfl,
   (c7_zero_tools_fail_fast (MCPConfig.mk none)).2
     ((c7_zero_tools_fail_fast (MCPConfig.mk none)).1 rfl)⟩

/-- C8: `setup_graph` raises to the caller on every unrecognized use-case
identifier (no graph is returned), and raises for the MCP use case when
the configuration is missing. -/
theorem c8_unknown_usecase_raises (usecase : String) (cfg? : Option MCPConfig)
    (h : usecase ∉ recognizedUsecases) :
    setup_graph usecase cfg? = Except.error ("Unknown usecase: " ++ usecase) ∧
    setup_graph "MCP Chatbot" none =
      Except.error "MCP configuration is required for MCP Chatbot" := by
  simp only [recognizedUsecases, List.mem_cons, List.not_mem_nil, or_false,
    not_or] at h
  obtain ⟨h1, h2, h3, h4⟩ := h
  constructor
  · unfold setup_graph
    rw [if_neg h1, if_neg h2, if_neg h3, if_neg h4]
  · rfl

/-- C8 witness: the identifier "Quantum Chat" is rejected. -/
theorem c8_witness :
    setup_graph "Quantum Chat" none =
      Except.error ("Unknown usecase: " ++ "Quantum Chat") ∧
    setup_graph "MCP Chatbot" none =
      Except.error "MCP configuration is required for MCP Chatbot" :=
  c8_unknown_usecase_raises "Quantum Chat" none (by decide)

/-- C9: an enabled server entry whose config omits the command field is
neither skipped nor an error: it is registered as a tool named
"mcp_" ++ server name, with command defaulting to "uvx" and args/env
defaulting to empty. -/
theorem c9_missing_command_defaults (server : String) (sc : ServerConfig)
    (cfg : MCPConfig)
    (hcmd : sc.command = none) (hdis : sc.disabled.getD false = false)
    (hmem : (server, sc) ∈ cfg.mcpServers.getD []) :
    ({ name := "mcp_" ++ server,
       description := "MCP tool for " ++ server ++
         " server - can handle various queries and operations",
       mcp_command := "uvx",
       mcp_args := sc.args.getD [],
       mcp_env := sc.env.getD [] } : MCPTool) ∈
      create_mcp_tools_from_config cfg := by
  unfold create_mcp_tools_from_config
  refine List.mem_filterMap.mpr ⟨(server, sc), hmem, ?_⟩
  simp [hdis, mkMCPTool, hcmd]

/-- C9 witness: the single missing-command entry "files" is registered
with the defaults. -/
theorem c9_witness :
    ({ name := "mcp_" ++ "files",
       description := "MCP tool for " ++ "files" ++
         " server - can handle various queries and operations",
       mcp_command := "uvx", mcp_args := [], mcp_env := [] } : MCPTool) ∈
      create_mcp_tools_from_config cfgOnlyMissing :=
  c9_missing_command_defaults "files" scNoCommand cfgOnlyMissing rfl rfl
    (by decide)

/-- C10: `MemoryLLMWrapper.invoke` returns exactly the value produced by
the underlying LLM call (with its fallback chain) on the memory-augmented
input; the recording step — succeed, raise, or be skipped — never alters
the returned value and never raises, for any memory system whatsoever. -/
theorem c10_memory_wrapper_transparent (tool : Option MemoryTool)
    (mem mem' : Option MemorySystem) (llm : MemLLM) (input : InputData) :
    (memoryInvoke tool mem llm input).1 =
      memoryLLMCall llm (memoryMessagesFor tool input) ∧
    (memoryInvoke tool mem llm input).1 = (memoryInvoke tool mem' llm input).1 := by
  have key : ∀ m : Option MemorySystem,
      (memoryInvoke tool m llm input).1 =
        memoryLLMCall llm (memoryMessagesFor tool input) := by
    intro m
    unfold memoryInvoke
    cases h : memoryLLMCall llm (memoryMessagesFor tool input) with
    | error e => simp [h]
    | ok r =>
      simp only [h]
      split
      · split <;> rfl
      · rfl
  exact ⟨key mem, (key mem).trans (key mem').symm⟩
